import Mathlib

/-!
Shallow embedding of the bugbrawler-bot Discord helpdesk bot
(src/main.py, src/settings/settings.py, src/ui/modal.py, src/ui/views.py,
src/ui/select_ui.py, src/ui/ticket_management.py).

Pure data is modelled directly; each interaction handler becomes a function
from its inputs (panel fields, environment lookups, remote-call responses)
to an explicit record or inductive describing every side effect it performs.
Remote HTTP calls are passed in as response values (an `Except` carries the
possibility of a raised exception); unhandled Python exceptions inside a
handler are modelled by a `crashed` flag or a dedicated error constructor,
since the hosting framework catches them at the handler boundary and the
handler performs no further effects.
-/

namespace BugBrawler

/-- Configuration surface loaded by src/settings/settings.py.  Optional role
ids are `Option Nat` (None when the environment variable is absent). -/
structure Settings where
  REPO_OWNER : String
  REPO_NAME : String
  REPO_NAME_FRONTEND : String
  DEV_ROLE_ID : Nat
  STAFF_ROLE_ID : Option Nat
  ADMIN_ROLE_ID : Option Nat
  OWNER_ROLE_ID : Option Nat
deriving DecidableEq

/-- Resolvability of the platform objects the handlers look up at run time
(guild roles, channels, category names), plus the collaborator listing is
passed separately.  `categoryNames` are the names of the guild categories. -/
structure GuildEnv where
  devRoleResolvable : Bool
  categoryNames : List String
  ticketCreateChannelResolvable : Bool
  mainTodoChannelResolvable : Bool
  doneChannelResolvable : Bool
deriving DecidableEq

/-- The five conceptual lifecycle states of a ticket (spec section 3). -/
inductive LifecycleState where
  | AwaitingForm
  | AwaitingAssignment
  | InProgress
  | Completed
  | PendingDeletion
deriving DecidableEq

/-- A dropdown option (discord.SelectOption label/value pair). -/
structure SelectOption where
  label : String
  value : String
deriving DecidableEq

/-- AssigneeSelect.get_collaborators (src/ui/ticket_management.py lines
56-71): the GitHub response body on status 200, the empty list on any other
status, and the empty list again when the request raises (the exception is
swallowed and logged). -/
def get_collaborators (resp : Except String (Nat × List String)) : List String :=
  match resp with
  | Except.error _ => []
  | Except.ok (status_code, body) => if status_code = 200 then body else []

/-- The AssigneeSelect dropdown: repository coordinates plus the rendered
option list (src/ui/ticket_management.py lines 20-54). -/
structure AssigneeSelect where
  repo_owner : String
  repo_name : String
  issue_number : Nat
  options : List SelectOption
deriving DecidableEq

/-- AssigneeSelect.__init__ (lines 34-54): fetches collaborators, keeps the
first 25 (the Discord option limit), and falls back to a single placeholder
option with value "none" when the list is empty. -/
def AssigneeSelect.init (repo_owner repo_name : String) (issue_number : Nat)
    (collabResp : Except String (Nat × List String)) : AssigneeSelect :=
  let collaborators := get_collaborators collabResp
  let opts := (collaborators.take 25).map (fun c => SelectOption.mk c c)
  let opts := if opts.isEmpty then [SelectOption.mk "No collaborators found" "none"] else opts
  AssigneeSelect.mk repo_owner repo_name issue_number opts

/-- TicketTodoView (lines 134-158): persistent view holding the assignee
dropdown and the claim button for a ticket awaiting assignment. -/
structure TicketTodoView where
  repo_owner : String
  repo_name : String
  issue_number : Nat
  issue_url : String
  select : AssigneeSelect
deriving DecidableEq

/-- TicketTodoView.__init__ (lines 150-158): stores its parameters and adds
an AssigneeSelect built from the collaborator listing. -/
def TicketTodoView.init (repo_owner repo_name : String) (issue_number : Nat)
    (issue_url : String) (collabResp : Except String (Nat × List String)) : TicketTodoView :=
  TicketTodoView.mk repo_owner repo_name issue_number issue_url
    (AssigneeSelect.init repo_owner repo_name issue_number collabResp)

/-- TicketDoneView (lines 217-234): persistent view with only the done
button; it has no assignee dropdown. -/
structure TicketDoneView where
  repo_owner : String
  repo_name : String
  issue_number : Nat
deriving DecidableEq

/-- TicketCompleteView (lines 321-330): delete-channel button, 300 s timeout. -/
structure TicketCompleteView where
  timeout : Nat := 300
deriving DecidableEq

/-- ChannelDeleteConfirmView (lines 375-381): yes/cancel buttons, 60 s timeout. -/
structure ChannelDeleteConfirmView where
  timeout : Nat := 60
deriving DecidableEq

/-- The interactive panel attached to the ticket message at any moment.
Per the spec, lifecycle state lives entirely in the rendered panel. -/
inductive Panel where
  | todo (v : TicketTodoView)
  | done (v : TicketDoneView)
  | complete (v : TicketCompleteView)
  | confirmDelete (v : ChannelDeleteConfirmView)
deriving DecidableEq

/-- The lifecycle state a rendered panel represents. -/
def Panel.state : Panel → LifecycleState
  | Panel.todo _ => LifecycleState.AwaitingAssignment
  | Panel.done _ => LifecycleState.InProgress
  | Panel.complete _ => LifecycleState.Completed
  | Panel.confirmDelete _ => LifecycleState.PendingDeletion

/-- Whether a panel still carries an assignee dropdown.  Only the
TicketTodoView does (TicketDoneView has just the done button, etc.). -/
def Panel.hasAssigneeDropdown : Panel → Bool
  | Panel.todo _ => true
  | _ => false

/-! ## Intake flow: select components, views and the modal
(src/ui/select_ui.py, src/ui/views.py, src/ui/modal.py) -/

/-- The four category options of TicketTypeSelect (src/ui/select_ui.py). -/
def ticketTypeOptions : List SelectOption :=
  [SelectOption.mk "🐞 Bug" "bug", SelectOption.mk "✨ Feature" "feature",
   SelectOption.mk "📚 Dokumentation" "documentation", SelectOption.mk "🆘 Hilfe" "help"]

/-- The three priority options of TicketPrioritySelect (src/ui/select_ui.py). -/
def ticketPriorityOptions : List SelectOption :=
  [SelectOption.mk "🔴 Hoch" "high", SelectOption.mk "🟡 Mittel" "medium",
   SelectOption.mk "🟢 Niedrig" "low"]

/-- The ticket-creation panel state: the two selections stored on the view
instance by the select callbacks (src/ui/views.py lines 39-46). -/
structure TicketCreateView where
  ticket_type : Option String := none
  ticket_priority : Option String := none
deriving DecidableEq

/-- TicketTypeSelect.callback: stores the picked value on the view. -/
def ticketTypeSelectCallback (v : TicketCreateView) (value : String) : TicketCreateView :=
  { v with ticket_type := some value }

/-- TicketPrioritySelect.callback: stores the picked value on the view. -/
def ticketPrioritySelectCallback (v : TicketCreateView) (value : String) : TicketCreateView :=
  { v with ticket_priority := some value }

/-- Python truthiness test `not x` for an optional string attribute:
true when the attribute is None or the empty string. -/
def falsy : Option String → Bool
  | none => true
  | some s => s.isEmpty

/-- The submitted intake modal (src/ui/modal.py lines 8-37): the three
constructor arguments plus the three text-input values at submission time
(`technical_description` may be empty since the input is optional). -/
structure TicketModal where
  ticket_type : String
  ticket_priority : String
  repo_select : String
  ticket_title : String
  ticket_description : String
  technical_description : String
deriving DecidableEq

/-- A Python call `TicketModal(ticket_type, priority, ...)`:
`TicketModal.__init__` declares `repo_select` as a third required positional
parameter with no default, so a call that omits it raises TypeError before
the modal object exists.  The text inputs start out empty. -/
def ticketModalCall (ticket_type priority : String) :
    Option String → Except String TicketModal
  | some r => Except.ok (TicketModal.mk ticket_type priority r "" "" "")
  | none => Except.error
      "TypeError: TicketModal.__init__ missing 1 required positional argument: \x27repo_select\x27"

/-- What a press of an intake button produces: an ephemeral rejection, a
successfully opened modal, or an exception escaping to the handler boundary
(the framework reports it and the press has no further effect). -/
inductive PressOutcome where
  | rejected (msg : String)
  | modalOpened (m : TicketModal)
  | handlerError (msg : String)
deriving DecidableEq

/-- TicketCreateView.create_ticket (src/ui/views.py lines 62-71): rejects
with an ephemeral message unless both selections are set, otherwise calls
`TicketModal(ticket_type=..., priority=...)` — omitting `repo_select`.
The handler never assigns to the view, so the returned state is the input
state unchanged. -/
def create_ticket (v : TicketCreateView) : PressOutcome × TicketCreateView :=
  if falsy v.ticket_type || falsy v.ticket_priority then
    (PressOutcome.rejected "Bitte zuerst Kategorie und Priorität auswählen!", v)
  else
    match ticketModalCall (v.ticket_type.getD "") (v.ticket_priority.getD "") none with
    | Except.ok m => (PressOutcome.modalOpened m, v)
    | Except.error e => (PressOutcome.handlerError e, v)

/-- TicketSetupView.continue_btn (src/ui/views.py lines 17-25): same guard,
then `TicketModal(self.ticket_type, self.ticket_priority)` — again omitting
`repo_select`.  (TicketSetupView never even defines the two attributes; we
model the attribute values as inputs and the modal call as written.) -/
def continue_btn (ticket_type ticket_priority : Option String) : PressOutcome :=
  if falsy ticket_type || falsy ticket_priority then
    PressOutcome.rejected "Bitte wähle eine Kategorie und eine Priorität"
  else
    match ticketModalCall (ticket_type.getD "") (ticket_priority.getD "") none with
    | Except.ok m => PressOutcome.modalOpened m
    | Except.error e => PressOutcome.handlerError e

/-! ## Modal submission (src/ui/modal.py lines 39-234) -/

/-- A createIssue request as assembled by on_submit: endpoint URL, title,
body and the two labels. -/
structure IssueRequest where
  url : String
  title : String
  body : String
  labels : List String
deriving DecidableEq

/-- The response to the createIssue POST: status, and the fields read from
the JSON body on success, plus the raw text used in the failure message. -/
structure CreateIssueResponse where
  status_code : Nat
  html_url : String
  number : Nat
  text : String
deriving DecidableEq

/-- Python `(value or "-").strip()`: the dash replaces an empty value. -/
def stripOrDash (s : String) : String :=
  if s.isEmpty then "-" else s.trim

/-- The issue body built by on_submit (lines 50-55): the description and the
technical description under two fixed headings. -/
def issueBody (m : TicketModal) : String :=
  "### Description\n" ++ stripOrDash m.ticket_description ++ "\n\n" ++
    "### Technical Description\n" ++ stripOrDash m.technical_description ++ "\n"

/-- The issues endpoint for a repository of the configured owner. -/
def issuesUrl (s : Settings) (repo_name : String) : String :=
  "https://api.github.com/repos/" ++ s.REPO_OWNER ++ "/" ++ repo_name ++ "/issues"

/-- The repository chosen by the if/elif chain on lines 57-63: frontend and
backend map to the two configured repositories; anything else leaves the
`url` and `repo_name` locals unassigned (no else branch). -/
def repoForSelect (s : Settings) (repo_select : String) : Option String :=
  if repo_select = "frontend" then some s.REPO_NAME_FRONTEND
  else if repo_select = "backend" then some s.REPO_NAME
  else none

/-- The request on_submit posts (lines 65-74): the chosen endpoint, the
title, the concatenated body, and labels [category, priority]. -/
def submitRequest (s : Settings) (m : TicketModal) (repo_name : String) : IssueRequest :=
  IssueRequest.mk (issuesUrl s repo_name) m.ticket_title (issueBody m)
    [m.ticket_type, m.ticket_priority]

/-- Channel name derived on line 83: DEV-, the repo selection, and the
lowercased title with spaces replaced by dashes, capped at 20 characters. -/
def channelNameFor (repo_select title : String) : String :=
  "DEV-" ++ repo_select ++ "-" ++ ((title.toLower.replace " " "-").take 20)

/-- Category resolution (lines 85-94): the first guild category named
"support tickets" (case-insensitively); otherwise the category of the
configured create channel — dereferencing None when that channel is not
resolvable, which raises AttributeError. -/
def resolveCategory (env : GuildEnv) : Except String Unit :=
  match env.categoryNames.find? (fun n => n.toLower = "support tickets") with
  | some _ => Except.ok ()
  | none =>
    if env.ticketCreateChannelResolvable then Except.ok ()
    else Except.error "AttributeError: NoneType has no attribute category"

/-- Every side effect of one on_submit run: createIssue requests sent,
ticket channels created, AwaitingAssignment panels posted, summary posts to
the main todo channel, ephemeral messages to the submitting user, and
whether an unhandled exception escaped. -/
structure SubmitOutcome where
  requests : List IssueRequest := []
  channelsCreated : List String := []
  panels : List TicketTodoView := []
  summaryPosts : Nat := 0
  ephemerals : List String := []
  crashed : Bool := false
deriving DecidableEq

/-- Lifecycle state lives in the rendered panel, so a transition to
AwaitingAssignment is exactly the posting of a TicketTodoView panel. -/
def SubmitOutcome.awaitingAssignmentTransitions (o : SubmitOutcome) : Nat :=
  o.panels.length

/-- TicketModal.on_submit (src/ui/modal.py lines 39-234).  Control flow:
with an unrecognised `repo_select` the `url` local is never assigned and
the handler raises UnboundLocalError before any request is sent.  Otherwise
one createIssue POST is made; on status 201 the handler resolves the
category (possibly crashing on a missing create channel), creates the
dedicated ticket channel, mentions the developer role (crashing if that
role is unresolvable — after the channel was already created), posts the
AwaitingAssignment panel there, posts a summary to the main todo channel
when it resolves, and confirms ephemerally; on any other status it sends a
single ephemeral error and performs nothing else. -/
def on_submit (s : Settings) (env : GuildEnv) (m : TicketModal)
    (respond : IssueRequest → CreateIssueResponse)
    (collabResp : Except String (Nat × List String)) : SubmitOutcome :=
  match repoForSelect s m.repo_select with
  | none => { crashed := true }
  | some repo_name =>
    let req := submitRequest s m repo_name
    let resp := respond req
    if resp.status_code = 201 then
      match resolveCategory env with
      | Except.error _ => { requests := [req], crashed := true }
      | Except.ok _ =>
        let cname := channelNameFor m.repo_select m.ticket_title
        if env.devRoleResolvable then
          { requests := [req]
            channelsCreated := [cname]
            panels := [TicketTodoView.init s.REPO_OWNER repo_name resp.number resp.html_url collabResp]
            summaryPosts := if env.mainTodoChannelResolvable then 1 else 0
            ephemerals := ["✅ Ticket created successfully!\n📌 Channel: #" ++ cname ++
              "\n🔗 GitHub Issue: " ++ resp.html_url] }
        else
          { requests := [req], channelsCreated := [cname], crashed := true }
    else
      { requests := [req]
        ephemerals := ["❌ Failed to create ticket\nError: " ++ resp.text] }

/-! ## Assignee selection (src/ui/ticket_management.py lines 73-131) -/

/-- Response to the PATCH that sets the issue assignees. -/
structure AssignResponse where
  status_code : Nat
  html_url : String
deriving DecidableEq

/-- What one run of AssigneeSelect.callback does: reject the placeholder
value ephemerally, edit the message to a new panel on success, or send an
ephemeral failure message leaving the message untouched. -/
inductive AssignOutcome where
  | invalidSelection (msg : String)
  | assigned (panel : Panel) (statusShown : String)
  | failed (msg : String)
deriving DecidableEq

/-- The panel the message is edited to, if any. -/
def AssignOutcome.editsMessageTo : AssignOutcome → Option Panel
  | AssignOutcome.assigned p _ => some p
  | _ => none

/-- AssigneeSelect.callback (lines 73-131): guards the "none" placeholder;
otherwise PATCHes the issue assignees.  On status 200 it edits the message
to a work-in-progress embed with a TicketDoneView (done button only); on any
other status, or when the request raises, it sends an ephemeral error and
the original panel stays in place. -/
def AssigneeSelect.callback (sel : AssigneeSelect) (selected : String)
    (respond : String → Except String AssignResponse) : AssignOutcome :=
  if selected = "none" then
    AssignOutcome.invalidSelection "No valid assignee selected"
  else
    match respond selected with
    | Except.ok resp =>
      if resp.status_code = 200 then
        AssignOutcome.assigned
          (Panel.done (TicketDoneView.mk sel.repo_owner sel.repo_name sel.issue_number))
          "Work in Progress"
      else
        AssignOutcome.failed
          ("Failed to assign user. GitHub API returned: " ++ toString resp.status_code)
    | Except.error e => AssignOutcome.failed ("Error assigning user: " ++ e)

/-! ## Mark as done (src/ui/ticket_management.py lines 236-318) -/

/-- Response to the PATCH that closes the issue. -/
structure CloseResponse where
  status_code : Nat
  html_url : String
  assignee : Option String
deriving DecidableEq

/-- Every side effect of one done_button run: summary embeds posted to the
done channel, the panel the ticket message is edited to (None when it is
left untouched), and ephemeral messages to the acting user. -/
structure DoneOutcome where
  donePosts : Nat := 0
  editedTo : Option Panel := none
  ephemerals : List String := []
deriving DecidableEq

/-- TicketDoneView.done_button (lines 236-318): PATCHes the issue closed.
On status 200 it resolves the done channel — aborting with an ephemeral
message when it is not resolvable — then posts exactly one completion embed
there and edits the ticket message to a TicketCompleteView.  On any other
status, or when the request raises, it only sends an ephemeral error. -/
def TicketDoneView.done_button (_v : TicketDoneView) (env : GuildEnv)
    (respond : Except String CloseResponse) : DoneOutcome :=
  match respond with
  | Except.error e => { ephemerals := ["Error completing ticket: " ++ e] }
  | Except.ok resp =>
    if resp.status_code = 200 then
      if env.doneChannelResolvable then
        { donePosts := 1, editedTo := some (Panel.complete (TicketCompleteView.mk 300)) }
      else
        { ephemerals := ["Done channel not found! Check DONE_CHANNEL_ID in settings."] }
    else
      { ephemerals := ["Failed to close issue. GitHub API returned: " ++ toString resp.status_code] }

/-! ## Claim button (src/ui/ticket_management.py lines 160-214) -/

/-- What one run of claim_ticket does: an ephemeral rejection, or an edit of
the message to a fresh AwaitingAssignment panel showing claimed status plus
a public follow-up notification. -/
inductive ClaimOutcome where
  | rejected (msg : String)
  | claimed (panel : Panel) (statusShown : String) (notification : String)
deriving DecidableEq

/-- TicketTodoView.claim_ticket (lines 160-214): requires the configured
developer role (an unresolvable role can be held by nobody); on failure it
sends an ephemeral rejection and changes nothing.  On success it edits the
message to a claimed embed with a brand-new TicketTodoView — the assignee
dropdown stays available — and sends a follow-up notification.  The
lifecycle panel kind is unchanged. -/
def TicketTodoView.claim_ticket (v : TicketTodoView) (devRole : Option Nat)
    (userRoles : List Nat) (userMention : String)
    (collabResp : Except String (Nat × List String)) : ClaimOutcome :=
  let has_role := match devRole with
    | some r => userRoles.contains r
    | none => false
  if !has_role then
    ClaimOutcome.rejected "❌ You need the Developer role to claim tickets!"
  else
    ClaimOutcome.claimed
      (Panel.todo (TicketTodoView.init v.repo_owner v.repo_name v.issue_number v.issue_url collabResp))
      "Claimed - Awaiting GitHub Assignment"
      ("🎯 **Ticket #" ++ toString v.issue_number ++ " has been claimed by " ++ userMention ++
        "!**\n📋 Don\x27t forget to assign it in GitHub using the dropdown above!\n" ++
        "Good luck with the implementation! 💪")

/-! ## Channel deletion (src/ui/ticket_management.py lines 321-408) -/

/-- Pressing the delete-channel button either rejects the actor ephemerally
or shows the 60-second confirmation sub-panel.  It never deletes anything
itself. -/
inductive DeleteBtnOutcome where
  | rejected (msg : String)
  | confirmShown (view : ChannelDeleteConfirmView)
deriving DecidableEq

/-- The role ids allowed to delete ticket channels (lines 345-353): the
developer role always, and the staff/admin/owner roles when configured. -/
def allowedDeleteRoles (s : Settings) : List Nat :=
  [s.DEV_ROLE_ID] ++ s.STAFF_ROLE_ID.toList ++ s.ADMIN_ROLE_ID.toList ++ s.OWNER_ROLE_ID.toList

/-- TicketCompleteView.delete_channel_button (lines 332-372): rejects any
actor holding none of the allowed roles; otherwise shows the confirmation
embed with a ChannelDeleteConfirmView. -/
def delete_channel_button (s : Settings) (userRoles : List Nat) : DeleteBtnOutcome :=
  if (allowedDeleteRoles s).any (fun role_id => userRoles.contains role_id) then
    DeleteBtnOutcome.confirmShown (ChannelDeleteConfirmView.mk 60)
  else
    DeleteBtnOutcome.rejected "❌ You don\x27t have permission to delete channels!"

/-- One observable event of the confirmation flow, in execution order: the
direct interaction response, a follow-up message, a sleep, or the channel
deletion itself. -/
inductive DelEvent where
  | respondMsg (text : String)
  | followupMsg (text : String)
  | sleep (seconds : Nat)
  | deleteChannel (name : String)
deriving DecidableEq

/-- Whether an event is a follow-up message. -/
def DelEvent.isFollowup : DelEvent → Bool
  | DelEvent.followupMsg _ => true
  | _ => false

/-- Whether an event deletes a channel. -/
def DelEvent.isChannelDeletion : DelEvent → Bool
  | DelEvent.deleteChannel _ => true
  | _ => false

/-- ChannelDeleteConfirmView.confirm_delete (lines 383-401): responds with
the deletion announcement, sleeps 3 seconds, then deletes the channel; if
the deletion raises, the error is reported via a follow-up message instead.
No message of any kind follows a successful deletion. -/
def confirm_delete (channelName : String) (deleteResult : Except String Unit) : List DelEvent :=
  let announce := DelEvent.respondMsg
    ("🗑️ Deleting channel \x27" ++ channelName ++ "\x27 in 3 seconds...")
  match deleteResult with
  | Except.ok _ => [announce, DelEvent.sleep 3, DelEvent.deleteChannel channelName]
  | Except.error e =>
    [announce, DelEvent.sleep 3, DelEvent.followupMsg ("❌ Error deleting channel: " ++ e)]

/-- ChannelDeleteConfirmView.cancel_delete (lines 403-408): an ephemeral
confirmation of the cancellation; the channel survives. -/
def cancel_delete : List DelEvent :=
  [DelEvent.respondMsg "✅ Channel deletion cancelled."]

/-- Expiry of the 60-second confirmation view: the framework disables the
buttons silently; no handler runs and no event is produced. -/
def confirmViewTimeoutEvents : List DelEvent := []

/-! ## Startup (src/main.py lines 11-30) -/

/-- Every effect of one on_ready run: entry-point messages sent to the
ticket channel, the message id handlers were re-attached to, and the
message id written to the persistence file. -/
structure StartupOutcome where
  entryMessagesSent : Nat
  reattachedTo : Option Nat
  persistedWrite : Option Nat
deriving DecidableEq

/-- on_ready (src/main.py lines 11-30): when ticket_message.json exists its
message_id is read, the message is fetched and the view re-attached — no
new message is sent and nothing is written.  When the file is absent
(FileNotFoundError), exactly one new entry-point message is sent and its id
is persisted. -/
def on_ready (persistedRecord : Option Nat) (newMsgId : Nat) : StartupOutcome :=
  match persistedRecord with
  | some msg_id => StartupOutcome.mk 0 (some msg_id) none
  | none => StartupOutcome.mk 1 none (some newMsgId)

/-! ## Concrete sample data used by witnesses and example scenarios -/

/-- A concrete configuration for concrete runs. -/
def sampleSettings : Settings :=
  { REPO_OWNER := "maxnoelp", REPO_NAME := "bugbrawler-backend",
    REPO_NAME_FRONTEND := "bugbrawler-frontend", DEV_ROLE_ID := 10,
    STAFF_ROLE_ID := some 11, ADMIN_ROLE_ID := none, OWNER_ROLE_ID := none }

/-- A guild in which every looked-up object resolves (no support-tickets
category, so the create-channel fallback is used). -/
def sampleEnv : GuildEnv :=
  { devRoleResolvable := true, categoryNames := [],
    ticketCreateChannelResolvable := true, mainTodoChannelResolvable := true,
    doneChannelResolvable := true }

/-- The example scenario of the spec: category bug, priority high, backend
repository, title "Login fails". -/
def loginModal : TicketModal :=
  { ticket_type := "bug", ticket_priority := "high", repo_select := "backend",
    ticket_title := "Login fails", ticket_description := "Users cannot log in",
    technical_description := "" }

/-- A modal whose repository selection is neither frontend nor backend. -/
def badRepoModal : TicketModal :=
  { ticket_type := "bug", ticket_priority := "high", repo_select := "docs",
    ticket_title := "Login fails", ticket_description := "Users cannot log in",
    technical_description := "" }

/-- A successful createIssue response. -/
def created201 : CreateIssueResponse :=
  { status_code := 201, html_url := "https://github.com/maxnoelp/bugbrawler-backend/issues/42",
    number := 42, text := "" }

/-- A tracker that accepts every createIssue request. -/
def respond201 : IssueRequest → CreateIssueResponse := fun _ => created201

/-- A tracker that rejects every createIssue request with status 500. -/
def respond500 : IssueRequest → CreateIssueResponse :=
  fun _ => CreateIssueResponse.mk 500 "" 0 "boom"

/-- A successful collaborator listing. -/
def sampleCollab : Except String (Nat × List String) :=
  Except.ok (200, ["alice", "bob"])

/-! ## Helper lemmas -/

/-- With a recognised repository selection, on_submit sends exactly the one
request assembled by submitRequest, in every branch. -/
theorem on_submit_requests_eq (s : Settings) (env : GuildEnv) (m : TicketModal)
    (respond : IssueRequest → CreateIssueResponse)
    (collabResp : Except String (Nat × List String)) (rn : String)
    (hr : repoForSelect s m.repo_select = some rn) :
    (on_submit s env m respond collabResp).requests = [submitRequest s m rn] := by
  simp only [on_submit, hr]
  split
  · split
    · rfl
    · split <;> rfl
  · rfl

/-! ## Claims -/

/-- Claim C1: on submitting the intake modal, a 201 from the issue-creation
call yields exactly one transition to AwaitingAssignment and exactly one
AwaitingAssignment panel post; any other status yields no transition, no
panel, and exactly one ephemeral error message to the submitting user.
Stated for any well-formed guild (the category and the developer role
resolve) and any recognised repository selection. -/
theorem c1_modal_submit_effects (s : Settings) (env : GuildEnv) (m : TicketModal)
    (respond : IssueRequest → CreateIssueResponse)
    (collabResp : Except String (Nat × List String)) (repo_name : String)
    (hrepo : repoForSelect s m.repo_select = some repo_name)
    (hcat : resolveCategory env = Except.ok ())
    (hdev : env.devRoleResolvable = true) :
    ((respond (submitRequest s m repo_name)).status_code = 201 →
      (on_submit s env m respond collabResp).awaitingAssignmentTransitions = 1 ∧
      (on_submit s env m respond collabResp).panels.length = 1) ∧
    ((respond (submitRequest s m repo_name)).status_code ≠ 201 →
      (on_submit s env m respond collabResp).awaitingAssignmentTransitions = 0 ∧
      (on_submit s env m respond collabResp).panels = [] ∧
      (on_submit s env m respond collabResp).ephemerals =
        ["❌ Failed to create ticket\nError: " ++ (respond (submitRequest s m repo_name)).text]) := by
  constructor
  · intro h201
    simp [on_submit, hrepo, hcat, hdev, h201, SubmitOutcome.awaitingAssignmentTransitions]
  · intro hne
    simp [on_submit, hrepo, hne, SubmitOutcome.awaitingAssignmentTransitions]

/-- Witness for C1 at the sample configuration: a 201 run posts one panel
and performs one transition; a 500 run posts none and sends exactly the one
error message. -/
theorem c1_modal_submit_effects_witness :
    ((on_submit sampleSettings sampleEnv loginModal respond201 sampleCollab).awaitingAssignmentTransitions = 1 ∧
      (on_submit sampleSettings sampleEnv loginModal respond201 sampleCollab).panels.length = 1) ∧
    ((on_submit sampleSettings sampleEnv loginModal respond500 sampleCollab).awaitingAssignmentTransitions = 0 ∧
      (on_submit sampleSettings sampleEnv loginModal respond500 sampleCollab).panels = [] ∧
      (on_submit sampleSettings sampleEnv loginModal respond500 sampleCollab).ephemerals =
        ["❌ Failed to create ticket\nError: " ++ "boom"]) := by
  constructor
  · exact (c1_modal_submit_effects sampleSettings sampleEnv loginModal respond201 sampleCollab
      "bugbrawler-backend" (by decide) rfl (by decide)).1 (by decide)
  · exact (c1_modal_submit_effects sampleSettings sampleEnv loginModal respond500 sampleCollab
      "bugbrawler-backend" (by decide) rfl (by decide)).2 (by decide)

/-- Claim C2 (code bug): with both category and priority selected the
create button should open the text-entry form, but the modal call omits the
required repo_select argument and raises TypeError, so the form never
opens; with a selection unset the press is rejected ephemerally and the
panel state is unchanged. -/
theorem c2_create_ticket_press :
    create_ticket (TicketCreateView.mk (some "bug") (some "high")) =
      (PressOutcome.handlerError
        "TypeError: TicketModal.__init__ missing 1 required positional argument: \x27repo_select\x27",
       TicketCreateView.mk (some "bug") (some "high")) ∧
    create_ticket (TicketCreateView.mk none (some "high")) =
      (PressOutcome.rejected "Bitte zuerst Kategorie und Priorität auswählen!",
       TicketCreateView.mk none (some "high")) := by
  exact ⟨rfl, rfl⟩

/-- Claim C3: every createIssue request sent by on_submit carries labels
[category, priority], the body built from the two headed sections, and the
endpoint chosen from the repository selection; in the example scenario
(bug/high/backend, "Login fails") exactly one request with labels
["bug", "high"] is sent and the AwaitingAssignment panel carries the
created issue URL. -/
theorem c3_request_shape :
    (∀ (s : Settings) (env : GuildEnv) (m : TicketModal)
        (respond : IssueRequest → CreateIssueResponse)
        (collabResp : Except String (Nat × List String)) (req : IssueRequest),
      req ∈ (on_submit s env m respond collabResp).requests →
        req.labels = [m.ticket_type, m.ticket_priority] ∧
        req.body = issueBody m ∧
        req.title = m.ticket_title ∧
        ∃ repo_name, repoForSelect s m.repo_select = some repo_name ∧
          req = submitRequest s m repo_name) ∧
    ((on_submit sampleSettings sampleEnv loginModal respond201 sampleCollab).requests =
      [submitRequest sampleSettings loginModal "bugbrawler-backend"] ∧
     (submitRequest sampleSettings loginModal "bugbrawler-backend").labels = ["bug", "high"] ∧
     (submitRequest sampleSettings loginModal "bugbrawler-backend").url =
       "https://api.github.com/repos/maxnoelp/bugbrawler-backend/issues" ∧
     (on_submit sampleSettings sampleEnv loginModal respond201 sampleCollab).panels.map
       TicketTodoView.issue_url = [created201.html_url]) := by
  constructor
  · intro s env m respond collabResp req hmem
    cases hr : repoForSelect s m.repo_select with
    | none =>
      rw [show (on_submit s env m respond collabResp).requests = [] from by
        simp [on_submit, hr]] at hmem
      exact absurd hmem (List.not_mem_nil req)
    | some rn =>
      rw [on_submit_requests_eq s env m respond collabResp rn hr] at hmem
      have hreq : req = submitRequest s m rn := List.mem_singleton.mp hmem
      subst hreq
      exact ⟨rfl, rfl, rfl, ⟨rn, rfl, rfl⟩⟩
  · refine ⟨?_, by decide, by decide, ?_⟩
    · exact on_submit_requests_eq sampleSettings sampleEnv loginModal respond201 sampleCollab
        "bugbrawler-backend" (by decide)
    · decide

/-- Witness for C3 applied to the request of the example scenario. -/
theorem c3_request_shape_witness :
    (submitRequest sampleSettings loginModal "bugbrawler-backend").labels =
      [loginModal.ticket_type, loginModal.ticket_priority] ∧
    (submitRequest sampleSettings loginModal "bugbrawler-backend").body = issueBody loginModal := by
  have hmem : submitRequest sampleSettings loginModal "bugbrawler-backend" ∈
      (on_submit sampleSettings sampleEnv loginModal respond201 sampleCollab).requests := by
    rw [on_submit_requests_eq sampleSettings sampleEnv loginModal respond201 sampleCollab
      "bugbrawler-backend" (by decide)]
    exact List.mem_singleton.mpr rfl
  have h := c3_request_shape.1 sampleSettings sampleEnv loginModal respond201 sampleCollab
    (submitRequest sampleSettings loginModal "bugbrawler-backend") hmem
  exact ⟨h.1, h.2.1⟩

/-- Claim C10: on_submit is total only for repository selections frontend
and backend — on any other value the url local is never assigned and the
handler dies before any remote call (no request is sent); and both intake
call sites omit the required repo_select constructor argument, so the
intake flow never constructs a modal at all: a Python call without the
argument raises TypeError, and every press of the create or continue
buttons ends in a rejection or a handler error, never an opened modal. -/
theorem c10_repo_select_partiality :
    (∀ (s : Settings) (env : GuildEnv) (m : TicketModal)
        (respond : IssueRequest → CreateIssueResponse)
        (collabResp : Except String (Nat × List String)),
      m.repo_select ≠ "frontend" → m.repo_select ≠ "backend" →
        on_submit s env m respond collabResp = { crashed := true }) ∧
    (∀ t p : String, ticketModalCall t p none = Except.error
      "TypeError: TicketModal.__init__ missing 1 required positional argument: \x27repo_select\x27") ∧
    (∀ v : TicketCreateView,
      (create_ticket v).1 = PressOutcome.rejected "Bitte zuerst Kategorie und Priorität auswählen!" ∨
      (create_ticket v).1 = PressOutcome.handlerError
        "TypeError: TicketModal.__init__ missing 1 required positional argument: \x27repo_select\x27") ∧
    (∀ t p : Option String,
      continue_btn t p = PressOutcome.rejected "Bitte wähle eine Kategorie und eine Priorität" ∨
      continue_btn t p = PressOutcome.handlerError
        "TypeError: TicketModal.__init__ missing 1 required positional argument: \x27repo_select\x27") := by
  refine ⟨?_, ?_, ?_, ?_⟩
  · intro s env m respond collabResp h1 h2
    have hr : repoForSelect s m.repo_select = none := by
      simp [repoForSelect, h1, h2]
    simp [on_submit, hr]
  · intro t p
    rfl
  · intro v
    unfold create_ticket
    split
    · exact Or.inl rfl
    · exact Or.inr rfl
  · intro t p
    unfold continue_btn
    split
    · exact Or.inl rfl
    · exact Or.inr rfl

/-- Witness for C10: the unrecognised selection "docs" crashes the handler
with no request sent. -/
theorem c10_repo_select_partiality_witness :
    on_submit sampleSettings sampleEnv badRepoModal respond201 sampleCollab = { crashed := true } :=
  c10_repo_select_partiality.1 sampleSettings sampleEnv badRepoModal respond201 sampleCollab
    (by decide) (by decide)

/-- Claim C4: selecting an assignee with the assign call returning 200
transitions the ticket AwaitingAssignment → InProgress by replacing the
panel (exactly one edit) with a TicketDoneView that has no assignee
dropdown; on any other status or a raised exception only an ephemeral
error is sent and the message — and so the AwaitingAssignment panel with
its dropdown — stays in place. -/
theorem c4_assignee_selection (sel : AssigneeSelect) (selected : String)
    (respond : String → Except String AssignResponse)
    (hsel : selected ≠ "none") :
    (∀ r : AssignResponse, respond selected = Except.ok r → r.status_code = 200 →
      AssigneeSelect.callback sel selected respond =
        AssignOutcome.assigned
          (Panel.done (TicketDoneView.mk sel.repo_owner sel.repo_name sel.issue_number))
          "Work in Progress" ∧
      (Panel.done (TicketDoneView.mk sel.repo_owner sel.repo_name sel.issue_number)).state =
        LifecycleState.InProgress ∧
      (Panel.done (TicketDoneView.mk sel.repo_owner sel.repo_name
        sel.issue_number)).hasAssigneeDropdown = false) ∧
    (∀ r : AssignResponse, respond selected = Except.ok r → r.status_code ≠ 200 →
      AssigneeSelect.callback sel selected respond =
        AssignOutcome.failed ("Failed to assign user. GitHub API returned: " ++
          toString r.status_code) ∧
      (AssigneeSelect.callback sel selected respond).editsMessageTo = none) ∧
    (∀ e : String, respond selected = Except.error e →
      AssigneeSelect.callback sel selected respond =
        AssignOutcome.failed ("Error assigning user: " ++ e) ∧
      (AssigneeSelect.callback sel selected respond).editsMessageTo = none) := by
  refine ⟨?_, ?_, ?_⟩
  · intro r hr h200
    simp [AssigneeSelect.callback, hsel, hr, h200, Panel.state, Panel.hasAssigneeDropdown]
  · intro r hr hne
    simp [AssigneeSelect.callback, AssignOutcome.editsMessageTo, hsel, hr, hne]
  · intro e he
    simp [AssigneeSelect.callback, AssignOutcome.editsMessageTo, hsel, he]

/-- The dropdown built for the sample repository. -/
def sampleAssignSelect : AssigneeSelect :=
  AssigneeSelect.init "maxnoelp" "bugbrawler-backend" 42 sampleCollab

/-- A tracker that accepts every assignment. -/
def assignOk : String → Except String AssignResponse :=
  fun _ => Except.ok (AssignResponse.mk 200 "https://github.com/maxnoelp/bugbrawler-backend/issues/42")

/-- Witness for C4: assigning alice with a 200 response replaces the panel
with the done view. -/
theorem c4_assignee_selection_witness :
    AssigneeSelect.callback sampleAssignSelect "alice" assignOk =
      AssignOutcome.assigned
        (Panel.done (TicketDoneView.mk sampleAssignSelect.repo_owner
          sampleAssignSelect.repo_name sampleAssignSelect.issue_number))
        "Work in Progress" :=
  ((c4_assignee_selection sampleAssignSelect "alice" assignOk (by decide)).1
    (AssignResponse.mk 200 "https://github.com/maxnoelp/bugbrawler-backend/issues/42")
    rfl rfl).1

/-- Claim C5: marking done with the close call returning 200 transitions
InProgress → Completed (the panel becomes the TicketCompleteView) and posts
exactly one summary to the completion channel; on any other status or a
raised exception nothing is posted there and the panel is untouched; and
when the completion channel is not resolvable the failure is reported to
the acting user and the operation aborts with nothing posted. -/
theorem c5_done_button (v : TicketDoneView) (env : GuildEnv)
    (respond : Except String CloseResponse) :
    (∀ r : CloseResponse, respond = Except.ok r → r.status_code = 200 →
        env.doneChannelResolvable = true →
      TicketDoneView.done_button v env respond =
        { donePosts := 1, editedTo := some (Panel.complete (TicketCompleteView.mk 300)) } ∧
      (Panel.complete (TicketCompleteView.mk 300)).state = LifecycleState.Completed) ∧
    (∀ r : CloseResponse, respond = Except.ok r → r.status_code ≠ 200 →
      TicketDoneView.done_button v env respond =
        { ephemerals := ["Failed to close issue. GitHub API returned: " ++
          toString r.status_code] }) ∧
    (∀ e : String, respond = Except.error e →
      TicketDoneView.done_button v env respond =
        { ephemerals := ["Error completing ticket: " ++ e] }) ∧
    (∀ r : CloseResponse, respond = Except.ok r → r.status_code = 200 →
        env.doneChannelResolvable = false →
      TicketDoneView.done_button v env respond =
        { ephemerals := ["Done channel not found! Check DONE_CHANNEL_ID in settings."] }) := by
  refine ⟨?_, ?_, ?_, ?_⟩
  · intro r hr h200 hch
    subst hr
    simp [TicketDoneView.done_button, h200, hch, Panel.state]
  · intro r hr hne
    subst hr
    simp [TicketDoneView.done_button, hne]
  · intro e he
    subst he
    simp [TicketDoneView.done_button]
  · intro r hr h200 hch
    subst hr
    simp [TicketDoneView.done_button, h200, hch]

/-- A successful close response. -/
def closeOk : Except String CloseResponse :=
  Except.ok (CloseResponse.mk 200 "https://github.com/maxnoelp/bugbrawler-backend/issues/42"
    (some "alice"))

/-- The sample guild with an unresolvable done channel. -/
def noDoneEnv : GuildEnv := { sampleEnv with doneChannelResolvable := false }

/-- Witness for C5: a 200 close posts exactly one summary and completes the
panel; the same close with the done channel missing aborts with only the
ephemeral report. -/
theorem c5_done_button_witness :
    TicketDoneView.done_button (TicketDoneView.mk "maxnoelp" "bugbrawler-backend" 42)
      sampleEnv closeOk =
      { donePosts := 1, editedTo := some (Panel.complete (TicketCompleteView.mk 300)) } ∧
    TicketDoneView.done_button (TicketDoneView.mk "maxnoelp" "bugbrawler-backend" 42)
      noDoneEnv closeOk =
      { ephemerals := ["Done channel not found! Check DONE_CHANNEL_ID in settings."] } := by
  constructor
  · exact ((c5_done_button (TicketDoneView.mk "maxnoelp" "bugbrawler-backend" 42) sampleEnv
      closeOk).1 (CloseResponse.mk 200
        "https://github.com/maxnoelp/bugbrawler-backend/issues/42" (some "alice"))
      rfl rfl rfl).1
  · exact (c5_done_button (TicketDoneView.mk "maxnoelp" "bugbrawler-backend" 42) noDoneEnv
      closeOk).2.2.2 (CloseResponse.mk 200
        "https://github.com/maxnoelp/bugbrawler-backend/issues/42" (some "alice"))
      rfl rfl rfl

/-- Claim C6, counterexample: in a successful confirmed deletion the
handler announces via the direct interaction response, sleeps 3 seconds and
deletes the channel as its final action — the trace contains no follow-up
message at all, so completion is not reported via a follow-up message as
the claim states (the follow-up is used only for deletion errors). -/
theorem c6_confirm_delete_counterexample :
    confirm_delete "dev-backend-login-fails" (Except.ok ()) =
      [DelEvent.respondMsg "🗑️ Deleting channel \x27dev-backend-login-fails\x27 in 3 seconds...",
       DelEvent.sleep 3, DelEvent.deleteChannel "dev-backend-login-fails"] ∧
    (confirm_delete "dev-backend-login-fails" (Except.ok ())).all
      (fun e => !e.isFollowup) = true := by
  exact ⟨rfl, rfl⟩

/-- Claim C6 as amended: the channel is deleted only via the confirmation
flow — an actor holding none of the configured elevated roles is rejected
without any deletion; a confirmed deletion is announced to the actor by an
immediate message and happens only after the fixed 3-second delay, with
failures (not completion) reported via a follow-up message; cancelling
deletes nothing and the 60-second confirmation view expires with no
events. -/
theorem c6_channel_deletion (s : Settings) (userRoles : List Nat) (name : String) :
    ((allowedDeleteRoles s).any (fun role_id => userRoles.contains role_id) = false →
      delete_channel_button s userRoles =
        DeleteBtnOutcome.rejected "❌ You don\x27t have permission to delete channels!") ∧
    (confirm_delete name (Except.ok ()) =
      [DelEvent.respondMsg ("🗑️ Deleting channel \x27" ++ name ++ "\x27 in 3 seconds..."),
       DelEvent.sleep 3, DelEvent.deleteChannel name]) ∧
    ((confirm_delete name (Except.ok ())).all (fun ev => !ev.isFollowup) = true) ∧
    (∀ e : String, (confirm_delete name (Except.error e)).all
      (fun ev => !ev.isChannelDeletion) = true) ∧
    (cancel_delete.all (fun ev => !ev.isChannelDeletion) = true) ∧
    confirmViewTimeoutEvents = [] ∧
    (ChannelDeleteConfirmView.mk 60).timeout = 60 := by
  refine ⟨?_, rfl, ?_, ?_, rfl, rfl, rfl⟩
  · intro h
    have h' : ∀ x ∈ allowedDeleteRoles s, x ∉ userRoles := by simpa using h
    simpa [delete_channel_button] using h'
  · simp [confirm_delete, DelEvent.isFollowup]
  · intro e
    simp [confirm_delete, DelEvent.isChannelDeletion]

/-- Witness for C6: a user holding only an unrelated role is rejected. -/
theorem c6_channel_deletion_witness :
    delete_channel_button sampleSettings [99] =
      DeleteBtnOutcome.rejected "❌ You don\x27t have permission to delete channels!" :=
  (c6_channel_deletion sampleSettings [99] "dev-chan").1 (by decide)

/-- Claim C7: with a persisted record, startup re-attaches handlers to the
recorded message and sends nothing and writes nothing; with no record it
sends exactly one entry-point message and persists its id — so a restart
sequence produces a single entry-point message in total. -/
theorem c7_entry_point_persistence (msg_id newId secondId : Nat) :
    on_ready (some msg_id) newId = StartupOutcome.mk 0 (some msg_id) none ∧
    on_ready none newId = StartupOutcome.mk 1 none (some newId) ∧
    (on_ready none newId).entryMessagesSent +
      (on_ready (on_ready none newId).persistedWrite secondId).entryMessagesSent = 1 :=
  ⟨rfl, rfl, rfl⟩

/-- Claim C8: a claim press by a user without the developer role (or with
that role unresolvable) is rejected ephemerally with no state change; a
press by a role holder replaces the panel with one showing claimed status
whose lifecycle state is still AwaitingAssignment and whose assignee
dropdown is still active. -/
theorem c8_claim_ticket_behaviour (v : TicketTodoView) (userRoles : List Nat)
    (mention : String) (collabResp : Except String (Nat × List String)) :
    (∀ r : Nat, userRoles.contains r = false →
      TicketTodoView.claim_ticket v (some r) userRoles mention collabResp =
        ClaimOutcome.rejected "❌ You need the Developer role to claim tickets!") ∧
    (TicketTodoView.claim_ticket v none userRoles mention collabResp =
      ClaimOutcome.rejected "❌ You need the Developer role to claim tickets!") ∧
    (∀ r : Nat, userRoles.contains r = true →
      TicketTodoView.claim_ticket v (some r) userRoles mention collabResp =
        ClaimOutcome.claimed
          (Panel.todo (TicketTodoView.init v.repo_owner v.repo_name v.issue_number
            v.issue_url collabResp))
          "Claimed - Awaiting GitHub Assignment"
          ("🎯 **Ticket #" ++ toString v.issue_number ++ " has been claimed by " ++ mention ++
            "!**\n📋 Don\x27t forget to assign it in GitHub using the dropdown above!\n" ++
            "Good luck with the implementation! 💪") ∧
      (Panel.todo (TicketTodoView.init v.repo_owner v.repo_name v.issue_number
        v.issue_url collabResp)).state = LifecycleState.AwaitingAssignment ∧
      (Panel.todo (TicketTodoView.init v.repo_owner v.repo_name v.issue_number
        v.issue_url collabResp)).hasAssigneeDropdown = true) := by
  refine ⟨?_, ?_, ?_⟩
  · intro r h
    have h' : r ∉ userRoles := by simpa using h
    simp [TicketTodoView.claim_ticket, h']
  · simp [TicketTodoView.claim_ticket]
  · intro r h
    have h' : r ∈ userRoles := by simpa using h
    simp [TicketTodoView.claim_ticket, h', Panel.state, Panel.hasAssigneeDropdown]

/-- The sample AwaitingAssignment view. -/
def sampleTodoView : TicketTodoView :=
  TicketTodoView.init "maxnoelp" "bugbrawler-backend" 42
    "https://github.com/maxnoelp/bugbrawler-backend/issues/42" sampleCollab

/-- Witness for C8: a user without the developer role is rejected; a role
holder gets the claimed panel with the dropdown still active. -/
theorem c8_claim_ticket_behaviour_witness :
    TicketTodoView.claim_ticket sampleTodoView (some 10) [99] "@alice" sampleCollab =
      ClaimOutcome.rejected "❌ You need the Developer role to claim tickets!" ∧
    (TicketTodoView.claim_ticket sampleTodoView (some 10) [10] "@alice" sampleCollab =
      ClaimOutcome.claimed
        (Panel.todo (TicketTodoView.init sampleTodoView.repo_owner sampleTodoView.repo_name
          sampleTodoView.issue_number sampleTodoView.issue_url sampleCollab))
        "Claimed - Awaiting GitHub Assignment"
        ("🎯 **Ticket #" ++ toString sampleTodoView.issue_number ++ " has been claimed by " ++
          "@alice" ++ "!**\n📋 Don\x27t forget to assign it in GitHub using the dropdown above!\n" ++
          "Good luck with the implementation! 💪")) := by
  constructor
  · exact (c8_claim_ticket_behaviour sampleTodoView [99] "@alice" sampleCollab).1 10 (by decide)
  · exact ((c8_claim_ticket_behaviour sampleTodoView [10] "@alice" sampleCollab).2.2 10
      (by decide)).1

/-- Claim C9: the collaborator listing yields the empty list on any raised
exception and on any non-200 status (the error is swallowed); the dropdown
options are the collaborator list capped at 25; an empty list degrades to
the single placeholder option with value "none", and selecting that
placeholder is rejected instead of failing. -/
theorem c9_collaborator_dropdown (repo_owner repo_name : String) (issue_number : Nat)
    (collabResp : Except String (Nat × List String)) :
    (∀ e : String, get_collaborators (Except.error e) = []) ∧
    (∀ (st : Nat) (body : List String), st ≠ 200 →
      get_collaborators (Except.ok (st, body)) = []) ∧
    (AssigneeSelect.init repo_owner repo_name issue_number collabResp).options.length ≤ 25 ∧
    (get_collaborators collabResp = [] →
      (AssigneeSelect.init repo_owner repo_name issue_number collabResp).options =
        [SelectOption.mk "No collaborators found" "none"]) ∧
    (get_collaborators collabResp ≠ [] →
      (AssigneeSelect.init repo_owner repo_name issue_number collabResp).options =
        ((get_collaborators collabResp).take 25).map (fun c => SelectOption.mk c c)) ∧
    (∀ (sel : AssigneeSelect) (respond : String → Except String AssignResponse),
      AssigneeSelect.callback sel "none" respond =
        AssignOutcome.invalidSelection "No valid assignee selected") := by
  refine ⟨fun e => rfl, ?_, ?_, ?_, ?_, fun sel respond => rfl⟩
  · intro st body h
    simp [get_collaborators, h]
  · cases hcol : get_collaborators collabResp with
    | nil => simp [AssigneeSelect.init, hcol]
    | cons a as =>
      simp [AssigneeSelect.init, hcol, List.length_take]
  · intro hemp
    simp [AssigneeSelect.init, hemp]
  · intro hne
    cases hcol : get_collaborators collabResp with
    | nil => exact absurd hcol hne
    | cons a as => simp [AssigneeSelect.init, hcol]

/-- Witness for C9: a 500 listing yields no collaborators and the
placeholder option. -/
theorem c9_collaborator_dropdown_witness :
    get_collaborators (Except.ok (500, ["alice"])) = [] ∧
    (AssigneeSelect.init "maxnoelp" "bugbrawler-backend" 42
      (Except.ok (500, ["alice"]))).options =
      [SelectOption.mk "No collaborators found" "none"] := by
  have h := c9_collaborator_dropdown "maxnoelp" "bugbrawler-backend" 42
    (Except.ok (500, ["alice"]))
  exact ⟨h.2.1 500 ["alice"] (by decide), h.2.2.2.1 (by decide)⟩

end BugBrawler
